import Mathlib

/-
Verification of the MIDI packet handling core of code.py (Fruit Jam
portable MIDI synth).

The embedded code is the MIDI event input loop of `main` (code.py lines
181-245): extraction of the code-index-number, channel, and data bytes
from a 4-byte USB-MIDI packet, the dispatch chain that issues
press/release/release_all calls to the synthio voice pool, the DEBUG
classification chain, and the outer supervisor loop that catches
transport errors (USBError / ValueError) and returns to scanning.

The voice pool itself (synthio.Synthesizer) is an external collaborator
not present in the repository; its press/release/release_all semantics
are modelled from the spec.
-/

namespace MidiSynth

/-- A raw USB-MIDI packet: the 4-byte memoryview delivered by
`dev.input_event_generator()`. Each field is one byte (0-255); the
embedding uses Nat, with masking written explicitly where the source
masks. -/
structure RawPacket where
  data0 : Nat
  data1 : Nat
  data2 : Nat
  data3 : Nat
  deriving DecidableEq, Repr

/-- Code-index-number: `cin = data[0] & 0x0f` (code.py line 197). -/
def RawPacket.cin (p : RawPacket) : Nat := p.data0 % 16

/-- Human-friendly channel: `chan = (data[1] & 0xf) + 1` (code.py line 198). -/
def RawPacket.chan (p : RawPacket) : Nat := p.data1 % 16 + 1

/-- Second byte: `num = data[2]` (code.py line 199). -/
def RawPacket.num (p : RawPacket) : Nat := p.data2

/-- Third byte: `val = data[3]` (code.py line 200). -/
def RawPacket.val (p : RawPacket) : Nat := p.data3

/-- The three voice-pool operations the dispatcher can invoke:
`press = synth.press`, `release = synth.release`,
`releaseAll = synth.release_all` (code.py lines 141-143). -/
inductive PoolCmd where
  | press (note : Nat)
  | release (note : Nat)
  | releaseAll
  deriving DecidableEq, Repr

/-- The voice-pool calls issued for one packet by the dispatch chain of
code.py lines 208-217:
`if cin == 0x08 and (21 <= num <= 108): release(num)`
`elif cin == 0x09 and (21 <= num <= 108): press(num)`
`elif cin == 0x0b and num == 123 and val == 0: panic()`.
A list records each call in order; the chain issues at most one call per
packet, and the else case of the chain issues none. -/
def poolCmds (p : RawPacket) : List PoolCmd :=
  if p.cin = 0x08 ∧ 21 ≤ p.num ∧ p.num ≤ 108 then
    [PoolCmd.release p.num]
  else if p.cin = 0x09 ∧ 21 ≤ p.num ∧ p.num ≤ 108 then
    [PoolCmd.press p.num]
  else if p.cin = 0x0b ∧ p.num = 123 ∧ p.val = 0 then
    [PoolCmd.releaseAll]
  else
    []

/-- Typed channel-voice events, the message families the source
distinguishes by code-index-number (code.py lines 208-237). -/
inductive ChannelVoiceEvent where
  | noteOff (chan note velocity : Nat)
  | noteOn (chan note velocity : Nat)
  | polyPressure (chan note pressure : Nat)
  | controlChange (chan control value : Nat)
  | channelPressure (chan pressure extra : Nat)
  | pitchBend (chan lsb msb : Nat)
  | ignored
  deriving DecidableEq, Repr

/-- Event classification of one polled input. `none` is the `data is
None: continue` path (code.py lines 185-186). For a packet, the family
is selected by code-index-number exactly as in the source dispatch
chains (lines 208-237): 0x08 note off, 0x09 note on, 0x0a poly
pressure, 0x0b control change, 0x0d channel pressure, 0x0e pitch bend,
and every other code-index-number falls through ignored ("Ignore the
rest: SysEx, System Realtime, or whatever", line 237). -/
def decode : Option RawPacket → ChannelVoiceEvent
  | none => ChannelVoiceEvent.ignored
  | some p =>
    if p.cin = 0x08 then ChannelVoiceEvent.noteOff p.chan p.num p.val
    else if p.cin = 0x09 then ChannelVoiceEvent.noteOn p.chan p.num p.val
    else if p.cin = 0x0a then ChannelVoiceEvent.polyPressure p.chan p.num p.val
    else if p.cin = 0x0b then ChannelVoiceEvent.controlChange p.chan p.num p.val
    else if p.cin = 0x0d then ChannelVoiceEvent.channelPressure p.chan p.num p.val
    else if p.cin = 0x0e then ChannelVoiceEvent.pitchBend p.chan p.num p.val
    else ChannelVoiceEvent.ignored

/-- Modelled from the spec: the voice pool (synthio.Synthesizer, an
external collaborator not in the repository) keeps at most one active
voice per note number, so its observable state is the set of active
notes. -/
abbrev VoicePool := Finset Nat

/-- Modelled from the spec: `press(note)` activates the voice for that
note; re-pressing an already-active note retriggers it rather than
allocating a second voice, so the active-note set just gains the note.
`release(note)` deactivates it; releasing an already-silent voice is a
no-op. `release_all()` releases every voice in the pool. -/
def applyCmd (pool : VoicePool) : PoolCmd → VoicePool
  | PoolCmd.press note => insert note pool
  | PoolCmd.release note => Finset.erase pool note
  | PoolCmd.releaseAll => (∅ : Finset Nat)

/-- Pool state after handling one polled input: apply each voice-pool
call the dispatch chain issues, in order; a `None` poll issues none
(code.py lines 185-186). -/
def stepPacket (pool : VoicePool) : Option RawPacket → VoicePool
  | none => pool
  | some p => (poolCmds p).foldl applyCmd pool

/-- Pool state after handling a sequence of polled inputs in arrival
order. -/
def runPackets (pool : VoicePool) (ps : List (Option RawPacket)) : VoicePool :=
  ps.foldl stepPacket pool

/-- Voice-pool calls issued for one polled input: a `None` poll issues
none (code.py lines 185-186). -/
def pollCmds : Option RawPacket → List PoolCmd
  | none => []
  | some p => poolCmds p

/-- All voice-pool calls issued over a sequence of polled inputs, in
order. -/
def runCmds (ps : List (Option RawPacket)) : List PoolCmd :=
  ps.foldr (fun p acc => pollCmds p ++ acc) []

/-- Connection lifecycle state of the outer loop (code.py lines
147-245): printing "USB Host: scanning bus..." and polling
`find_usb_device` is scanning; the MIDI event input loop over
`dev.input_event_generator()` is connected. -/
inductive ConnState where
  | scanning
  | connected
  deriving DecidableEq, Repr

/-- What the transport can hand the supervisor loop: a successful scan
result accepted by `MIDIInputDevice(r)`, one polled input of the event
generator (packet or `None`), or a fault (`USBError` from an unplug or
`ValueError` from a handshake glitch, code.py lines 238-245). -/
inductive TransportSignal where
  | deviceFound
  | packet (p : Option RawPacket)
  | fault
  deriving DecidableEq, Repr

/-- Observable state of the supervisor plus the voice pool it drives. -/
structure SupState where
  conn : ConnState
  pool : VoicePool
  deriving DecidableEq

/-- One supervisor transition, from the outer `while True` loop of
code.py lines 147-245: a found device ends scanning and enters the
event loop; a polled input is handled by the dispatch chain only while
connected; on `USBError` or `ValueError` the except clauses print a
message and fall back to scanning, touching nothing of the synth — no
voice is pressed or released on a fault. -/
def supervisorStep (s : SupState) : TransportSignal → SupState
  | TransportSignal.deviceFound =>
    { s with conn := ConnState.connected }
  | TransportSignal.packet p =>
    if s.conn = ConnState.connected then
      { s with pool := stepPacket s.pool p }
    else
      s
  | TransportSignal.fault =>
    { s with conn := ConnState.scanning }

/-- Supervisor state after a sequence of transport signals in arrival
order. -/
def runSignals (s : SupState) (sigs : List TransportSignal) : SupState :=
  sigs.foldl supervisorStep s

/-- Number of polled inputs in a sequence whose decoded event is a
(non-Ignored) PolyPressure event. -/
def countPolyPressure (ps : List (Option RawPacket)) : Nat :=
  (ps.filter (fun p =>
    match decode p with
    | ChannelVoiceEvent.polyPressure _ _ _ => true
    | _ => false)).length

/-- Helper: a packet whose code-index-number is none of the recognized
families decodes to `ignored`. -/
theorem decode_eq_ignored (p : RawPacket)
    (h8 : p.cin ≠ 0x08) (h9 : p.cin ≠ 0x09) (ha : p.cin ≠ 0x0a)
    (hb : p.cin ≠ 0x0b) (hd : p.cin ≠ 0x0d) (he : p.cin ≠ 0x0e) :
    decode (some p) = ChannelVoiceEvent.ignored := by
  simp only [decode]
  rw [if_neg h8, if_neg h9, if_neg ha, if_neg hb, if_neg hd, if_neg he]

/-- Helper: a packet whose code-index-number is not 0x08, 0x09 or 0x0b
makes the dispatch chain issue no voice-pool call. -/
theorem poolCmds_eq_nil (p : RawPacket)
    (h8 : p.cin ≠ 0x08) (h9 : p.cin ≠ 0x09) (hb : p.cin ≠ 0x0b) :
    poolCmds p = [] := by
  unfold poolCmds
  rw [if_neg (fun hc => h8 hc.1), if_neg (fun hc => h9 hc.1),
    if_neg (fun hc => hb hc.1)]

/-- C1: a NoteOn packet (code-index-number 0x9) with note number in
[21,108] makes the dispatch chain issue exactly one press(note) call;
with note number outside [21,108] it issues no voice-pool call at all. -/
theorem C1_noteOn_press (p : RawPacket) (h : p.cin = 0x09) :
    (21 ≤ p.num ∧ p.num ≤ 108 → poolCmds p = [PoolCmd.press p.num]) ∧
    (¬ (21 ≤ p.num ∧ p.num ≤ 108) → poolCmds p = []) := by
  constructor
  · intro hr
    unfold poolCmds
    rw [if_neg (fun hc => by rw [h] at hc; exact absurd hc.1 (by decide)),
      if_pos ⟨h, hr⟩]
  · intro hr
    unfold poolCmds
    rw [if_neg (fun hc => by rw [h] at hc; exact absurd hc.1 (by decide)),
      if_neg (fun hc => hr hc.2),
      if_neg (fun hc => by rw [h] at hc; exact absurd hc.1 (by decide))]

/-- C1 witness: the raw packet [0x09, 0x90, 0x3C, 0x64] produces exactly
one press(60) call. -/
theorem C1_noteOn_press_witness :
    poolCmds { data0 := 0x09, data1 := 0x90, data2 := 0x3C, data3 := 0x64 } =
      [PoolCmd.press 60] :=
  (C1_noteOn_press
    { data0 := 0x09, data1 := 0x90, data2 := 0x3C, data3 := 0x64 }
    (by decide)).1 (by decide)

/-- C2: a ControlChange packet (code-index-number 0xB) with control 123
and value 0 makes the dispatch chain issue exactly one release_all call,
for every channel nibble of byte 1; handling the same packet twice in a
row leaves the pool in the same state as handling it once. -/
theorem C2_cc123_releaseAll (p : RawPacket)
    (h : p.cin = 0x0b) (hn : p.num = 123) (hv : p.val = 0) :
    poolCmds p = [PoolCmd.releaseAll] ∧
    ∀ pool : VoicePool,
      stepPacket (stepPacket pool (some p)) (some p) = stepPacket pool (some p) := by
  have hc : poolCmds p = [PoolCmd.releaseAll] := by
    unfold poolCmds
    rw [if_neg (fun hc => by rw [h] at hc; exact absurd hc.1 (by decide)),
      if_neg (fun hc => by rw [h] at hc; exact absurd hc.1 (by decide)),
      if_pos ⟨h, hn, hv⟩]
  refine ⟨hc, fun pool => ?_⟩
  simp [stepPacket, hc, applyCmd]

/-- C2 witness: the raw packet [0x0B, 0xB2, 0x7B, 0x00] (CC 123 = 0 on
channel 3) produces exactly one release_all call, and handling it twice
from the pool with notes 60 and 72 active equals handling it once. -/
theorem C2_cc123_releaseAll_witness :
    poolCmds { data0 := 0x0B, data1 := 0xB2, data2 := 0x7B, data3 := 0x00 } =
      [PoolCmd.releaseAll] ∧
    stepPacket
        (stepPacket ({60, 72} : VoicePool)
          (some { data0 := 0x0B, data1 := 0xB2, data2 := 0x7B, data3 := 0x00 }))
        (some { data0 := 0x0B, data1 := 0xB2, data2 := 0x7B, data3 := 0x00 }) =
      stepPacket ({60, 72} : VoicePool)
        (some { data0 := 0x0B, data1 := 0xB2, data2 := 0x7B, data3 := 0x00 }) := by
  have h := C2_cc123_releaseAll
    { data0 := 0x0B, data1 := 0xB2, data2 := 0x7B, data3 := 0x00 }
    (by decide) (by decide) (by decide)
  exact ⟨h.1, h.2 {60, 72}⟩

/-- C9: a NoteOn packet with velocity 0 and note in [21,108] issues a
press(note) call exactly like any other NoteOn, and under
code-index-number 0x9 the issued voice-pool calls never depend on the
velocity byte at all. -/
theorem C9_noteOn_velocity_zero (p : RawPacket) (h : p.cin = 0x09)
    (hv : p.val = 0) (h1 : 21 ≤ p.num) (h2 : p.num ≤ 108) :
    poolCmds p = [PoolCmd.press p.num] ∧
    ∀ v : Nat, poolCmds { p with data3 := v } = poolCmds p := by
  have hgen : ∀ q : RawPacket, q.cin = 0x09 → 21 ≤ q.num → q.num ≤ 108 →
      poolCmds q = [PoolCmd.press q.num] := by
    intro q hq hq1 hq2
    unfold poolCmds
    rw [if_neg (fun hc => by rw [hq] at hc; exact absurd hc.1 (by decide)),
      if_pos ⟨hq, hq1, hq2⟩]
  have hbase := hgen p h h1 h2
  refine ⟨hbase, fun v => ?_⟩
  rw [hbase, hgen { p with data3 := v } h h1 h2]
  rfl

/-- C9 witness: the packet [0x09, 0x90, 0x3C, 0x00] (NoteOn, note 60,
velocity 0) produces one press(60) call. -/
theorem C9_noteOn_velocity_zero_witness :
    poolCmds { data0 := 0x09, data1 := 0x90, data2 := 0x3C, data3 := 0x00 } =
      [PoolCmd.press 60] :=
  (C9_noteOn_velocity_zero
    { data0 := 0x09, data1 := 0x90, data2 := 0x3C, data3 := 0x00 }
    (by decide) (by decide) (by decide) (by decide)).1

/-- C10: the voice-pool calls issued for a packet do not depend on the
channel nibble of byte 1: two packets that differ only in that nibble
yield the same calls, for every code-index-number. -/
theorem C10_channel_agnostic (d0 d1 d1a d2 d3 : Nat)
    (h : d1 / 16 = d1a / 16) :
    poolCmds { data0 := d0, data1 := d1, data2 := d2, data3 := d3 } =
      poolCmds { data0 := d0, data1 := d1a, data2 := d2, data3 := d3 } := rfl

/-- C10 witness: a NoteOn on channel 1 and the same NoteOn on channel 6
issue the same voice-pool calls. -/
theorem C10_channel_agnostic_witness :
    poolCmds { data0 := 0x09, data1 := 0x90, data2 := 0x3C, data3 := 0x64 } =
      poolCmds { data0 := 0x09, data1 := 0x95, data2 := 0x3C, data3 := 0x64 } :=
  C10_channel_agnostic 0x09 0x90 0x95 0x3C 0x64 (by decide)

/-- C4: a packet whose code-index-number nibble is 0xF (and whose
payload byte lies in [0xF8, 0xFF]) decodes to `ignored`, issues no
voice-pool call, and leaves the pool unchanged; the source keeps no
thinning counters, so no decoder state of any kind is touched. -/
theorem C4_system_realtime_ignored (p : RawPacket) (h : p.cin = 0x0f)
    (hlo : 0xf8 ≤ p.data1) (hhi : p.data1 ≤ 0xff) :
    decode (some p) = ChannelVoiceEvent.ignored ∧ poolCmds p = [] ∧
    ∀ pool : VoicePool, stepPacket pool (some p) = pool := by
  have hnil : poolCmds p = [] := poolCmds_eq_nil p
    (by rw [h]; decide) (by rw [h]; decide) (by rw [h]; decide)
  refine ⟨?_, hnil, fun pool => ?_⟩
  · exact decode_eq_ignored p (by rw [h]; decide) (by rw [h]; decide)
      (by rw [h]; decide) (by rw [h]; decide) (by rw [h]; decide)
      (by rw [h]; decide)
  · simp [stepPacket, hnil]

/-- C4 witness: the packet [0x0F, 0xF8, 0x00, 0x00] (system real-time
clock byte 0xF8) decodes to ignored, issues no call, and leaves the pool
with note 60 active unchanged. -/
theorem C4_system_realtime_ignored_witness :
    decode (some { data0 := 0x0F, data1 := 0xF8, data2 := 0x00, data3 := 0x00 }) =
        ChannelVoiceEvent.ignored ∧
      poolCmds { data0 := 0x0F, data1 := 0xF8, data2 := 0x00, data3 := 0x00 } = [] ∧
      stepPacket ({60} : VoicePool)
          (some { data0 := 0x0F, data1 := 0xF8, data2 := 0x00, data3 := 0x00 }) =
        ({60} : VoicePool) := by
  have h := C4_system_realtime_ignored
    { data0 := 0x0F, data1 := 0xF8, data2 := 0x00, data3 := 0x00 }
    (by decide) (by decide) (by decide)
  exact ⟨h.1, h.2.1, h.2.2 {60}⟩

/-- C7: a null poll (`data is None`) decodes to `ignored`, issues no
voice-pool call, and leaves the pool unchanged. -/
theorem C7_null_ignored (pool : VoicePool) :
    decode none = ChannelVoiceEvent.ignored ∧
    pollCmds none = [] ∧
    stepPacket pool none = pool :=
  ⟨rfl, rfl, rfl⟩

/-- C8: the decoder is total: every packet decodes to some event, and
every packet whose code-index-number matches none of the recognized
families (0x8, 0x9, 0xA, 0xB, 0xD, 0xE) decodes to `ignored` and issues
no voice-pool call. -/
theorem C8_decoder_total (p : RawPacket)
    (h : p.cin ≠ 0x08 ∧ p.cin ≠ 0x09 ∧ p.cin ≠ 0x0a ∧ p.cin ≠ 0x0b ∧
      p.cin ≠ 0x0d ∧ p.cin ≠ 0x0e) :
    (∃ e : ChannelVoiceEvent, decode (some p) = e) ∧
    decode (some p) = ChannelVoiceEvent.ignored ∧
    poolCmds p = [] := by
  obtain ⟨h8, h9, ha, hb, hd, he⟩ := h
  exact ⟨⟨decode (some p), rfl⟩,
    decode_eq_ignored p h8 h9 ha hb hd he,
    poolCmds_eq_nil p h8 h9 hb⟩

/-- C8 witness: the packet [0x04, 0xF0, 0x11, 0x22] (SysEx start,
code-index-number 0x4) decodes to ignored and issues no call. -/
theorem C8_decoder_total_witness :
    decode (some { data0 := 0x04, data1 := 0xF0, data2 := 0x11, data3 := 0x22 }) =
        ChannelVoiceEvent.ignored ∧
    poolCmds { data0 := 0x04, data1 := 0xF0, data2 := 0x11, data3 := 0x22 } = [] :=
  (C8_decoder_total { data0 := 0x04, data1 := 0xF0, data2 := 0x11, data3 := 0x22 }
    ⟨by decide, by decide, by decide, by decide, by decide, by decide⟩).2

/-- C6: from any pool in which note n (in [21,108]) is idle, a NoteOn
for n immediately followed by a NoteOff for n restores exactly the
initial pool state. -/
theorem C6_noteOn_noteOff_roundtrip (n : Nat) (pool : VoicePool)
    (h1 : 21 ≤ n) (h2 : n ≤ 108) (hidle : n ∉ pool) :
    runPackets pool
      [some { data0 := 0x09, data1 := 0x90, data2 := n, data3 := 100 },
       some { data0 := 0x08, data1 := 0x80, data2 := n, data3 := 0 }] = pool := by
  have hOn : poolCmds { data0 := 0x09, data1 := 0x90, data2 := n, data3 := 100 } =
      [PoolCmd.press n] := by
    unfold poolCmds
    rw [if_neg (by simp [RawPacket.cin]), if_pos ⟨by rfl, h1, h2⟩]
    rfl
  have hOff : poolCmds { data0 := 0x08, data1 := 0x80, data2 := n, data3 := 0 } =
      [PoolCmd.release n] := by
    unfold poolCmds
    rw [if_pos ⟨by rfl, h1, h2⟩]
    rfl
  simp only [runPackets, List.foldl, stepPacket, hOn, hOff, applyCmd]
  exact Finset.erase_insert hidle

/-- C6 witness: from the pool with only note 72 active (60 idle), NoteOn
60 then NoteOff 60 restores that pool. -/
theorem C6_noteOn_noteOff_roundtrip_witness :
    runPackets ({72} : VoicePool)
      [some { data0 := 0x09, data1 := 0x90, data2 := 60, data3 := 100 },
       some { data0 := 0x08, data1 := 0x80, data2 := 60, data3 := 0 }] =
      ({72} : VoicePool) :=
  C6_noteOn_noteOff_roundtrip 60 {72} (by decide) (by decide) (by decide)

/-- C5: a transport fault while connected sends the supervisor back to
scanning and never touches the voice pool, so a note pressed with no
matching NoteOff before the disconnect stays active across the
reconnect. Stated both in general (any fault leaves the pool unchanged)
and for the scenario NoteOn(60) then fault. -/
theorem C5_fault_keeps_pool (s : SupState) (h : s.conn = ConnState.connected) :
    (∀ t : SupState,
      (supervisorStep t TransportSignal.fault).conn = ConnState.scanning ∧
      (supervisorStep t TransportSignal.fault).pool = t.pool) ∧
    runSignals s
        [TransportSignal.packet
          (some { data0 := 0x09, data1 := 0x90, data2 := 60, data3 := 100 }),
         TransportSignal.fault] =
      { conn := ConnState.scanning, pool := insert 60 s.pool } ∧
    60 ∈ (runSignals s
        [TransportSignal.packet
          (some { data0 := 0x09, data1 := 0x90, data2 := 60, data3 := 100 }),
         TransportSignal.fault]).pool := by
  have hrun : runSignals s
      [TransportSignal.packet
        (some { data0 := 0x09, data1 := 0x90, data2 := 60, data3 := 100 }),
       TransportSignal.fault] =
      { conn := ConnState.scanning, pool := insert 60 s.pool } := by
    simp [runSignals, supervisorStep, h, stepPacket, poolCmds,
      RawPacket.cin, RawPacket.num, RawPacket.val, applyCmd]
  refine ⟨fun t => ⟨rfl, rfl⟩, hrun, ?_⟩
  rw [hrun]
  exact Finset.mem_insert_self 60 s.pool

/-- C5 witness: from the connected state with an empty pool, NoteOn 60
then a fault ends scanning with note 60 still active; a fault from the
connected state with note 60 active keeps the pool. -/
theorem C5_fault_keeps_pool_witness :
    (supervisorStep { conn := ConnState.connected, pool := ({60} : VoicePool) }
        TransportSignal.fault).conn = ConnState.scanning ∧
    (supervisorStep { conn := ConnState.connected, pool := ({60} : VoicePool) }
        TransportSignal.fault).pool = ({60} : VoicePool) ∧
    runSignals { conn := ConnState.connected, pool := (∅ : VoicePool) }
        [TransportSignal.packet
          (some { data0 := 0x09, data1 := 0x90, data2 := 60, data3 := 100 }),
         TransportSignal.fault] =
      { conn := ConnState.scanning, pool := insert 60 (∅ : VoicePool) } ∧
    60 ∈ (runSignals { conn := ConnState.connected, pool := (∅ : VoicePool) }
        [TransportSignal.packet
          (some { data0 := 0x09, data1 := 0x90, data2 := 60, data3 := 100 }),
         TransportSignal.fault]).pool := by
  obtain ⟨hall, hrun, hmem⟩ :=
    C5_fault_keeps_pool { conn := ConnState.connected, pool := (∅ : VoicePool) } rfl
  exact ⟨(hall { conn := ConnState.connected, pool := ({60} : VoicePool) }).1,
    (hall { conn := ConnState.connected, pool := ({60} : VoicePool) }).2,
    hrun, hmem⟩

/-- Helper: a packet with code-index-number 0x0A always decodes to a
PolyPressure event; the source has no thinning counters, so no message
of this kind is ever replaced by ignored. -/
theorem decode_polyPressure (p : RawPacket) (h : p.cin = 0x0a) :
    decode (some p) = ChannelVoiceEvent.polyPressure p.chan p.num p.val := by
  simp only [decode]
  rw [if_neg (by rw [h]; decide), if_neg (by rw [h]; decide), if_pos h]

/-- C3 counterexample: with the fixed skip count N = 6 claimed by the
spec, 2N = 12 consecutive PolyPressure packets decode to 12 non-Ignored
PolyPressure events, not 2: the source applies no thinning. -/
theorem C3_thinning_cex :
    countPolyPressure (List.replicate 12
        (some { data0 := 0x0A, data1 := 0xA0, data2 := 60, data3 := 80 })) = 12 ∧
    countPolyPressure (List.replicate 12
        (some { data0 := 0x0A, data1 := 0xA0, data2 := 60, data3 := 80 })) ≠ 2 := by
  constructor <;> decide

/-- C3 amended: the source keeps no thinning state, so every one of n
consecutive PolyPressure packets decodes to a non-Ignored PolyPressure
event — n of n are decoded, and there are no counters to reset after a
reconnect. -/
theorem C3_no_thinning (n : Nat) (p : RawPacket) (h : p.cin = 0x0a) :
    countPolyPressure (List.replicate n (some p)) = n := by
  have hd : decode (some p) = ChannelVoiceEvent.polyPressure p.chan p.num p.val :=
    decode_polyPressure p h
  induction n with
  | zero => rfl
  | succ k ih =>
    simp only [countPolyPressure, List.replicate_succ, List.filter_cons] at ih ⊢
    simp [hd] at ih ⊢

/-- C3 amended witness: 12 consecutive PolyPressure packets yield 12
decoded PolyPressure events. -/
theorem C3_no_thinning_witness :
    countPolyPressure (List.replicate 12
        (some { data0 := 0x0A, data1 := 0xA0, data2 := 60, data3 := 80 })) = 12 :=
  C3_no_thinning 12 { data0 := 0x0A, data1 := 0xA0, data2 := 60, data3 := 80 }
    (by decide)

end MidiSynth
